import Mathlib

/-!
Verification development for the AI-orchestration core of the
Customize-Resume repository.  The definitions below are a shallow
embedding of:

* `AIHandler.parseAIResponse` / `AIHandler.validateResumeStructure`
  (src/js/ai-handler.js, lines 271-426),
* `AIHandler.callGeminiAPI` / `AgenticAIHandler.callGeminiAPI` retry
  loops (src/js/ai-handler.js lines 228-264),
* the stage agents' `extractJSON` (JobAnalyzerAgent / ResumeOptimizerAgent /
  QualityValidatorAgent, which are textually identical), and
* `AgenticAIHandler.customizeResumeWithAgents` together with the four
  stage-agent methods and `AgenticAIHandler.validateResumeStructure`.

`JSON.parse` is modelled by an executable recursive-descent JSON parser
over `List Char`; the three concrete JavaScript regular expressions used
by the extractors are modelled by direct scanning functions that mirror
the leftmost-match (and lazy/greedy) semantics of those specific
patterns.  JavaScript progress percentages (decimal literals 0.15, 0.20,
0.30) are modelled over `ℚ`.
-/

/-- JSON values as produced by `JSON.parse`.  Numbers keep their source
lexeme (no claim compares two different lexemes of one number); object
fields keep source order and `lookupLast` models the
last-duplicate-key-wins behaviour of JavaScript objects. -/
inductive JVal where
  | jnull : JVal
  | jbool : Bool → JVal
  | jnum : List Char → JVal
  | jstr : List Char → JVal
  | jarr : List JVal → JVal
  | jobj : List (List Char × JVal) → JVal

/-- Whitespace accepted between JSON tokens by `JSON.parse`. -/
def isJsonWs : Char → Bool
  | ' ' | '\t' | '\n' | '\r' => true
  | _ => false

/-- The ASCII part of the JavaScript whitespace class used by
`String.prototype.trim` and by the regex class `\s` (the Unicode
space characters of that class never occur in the inputs treated here). -/
def isJsWs : Char → Bool
  | ' ' | '\t' | '\n' | '\r' | '\x0b' | '\x0c' => true
  | _ => false

def skipWs (cs : List Char) : List Char := cs.dropWhile isJsonWs

/-- Model of `String.prototype.trim`. -/
def trimJS (cs : List Char) : List Char :=
  ((cs.dropWhile isJsWs).reverse.dropWhile isJsWs).reverse

def hexVal (c : Char) : Option Nat :=
  if c.isDigit then some (c.toNat - 48)
  else if 'a' ≤ c ∧ c ≤ 'f' then some (c.toNat - 87)
  else if 'A' ≤ c ∧ c ≤ 'F' then some (c.toNat - 55)
  else none

/-- The two-character escapes accepted inside JSON strings. -/
def escChar : Char → Option Char
  | '"' => some '"'
  | '\\' => some '\\'
  | '/' => some '/'
  | 'b' => some '\x08'
  | 'f' => some '\x0c'
  | 'n' => some '\n'
  | 'r' => some '\r'
  | 't' => some '\t'
  | _ => none

/-- Body of a JSON string after the opening quote; returns the decoded
characters and the remainder after the closing quote. -/
def parseStringBody : List Char → Option (List Char × List Char)
  | [] => none
  | '"' :: rest => some ([], rest)
  | '\\' :: 'u' :: a :: b :: c :: d :: rest =>
    match hexVal a, hexVal b, hexVal c, hexVal d with
    | some ha, some hb, some hc, some hd =>
      (parseStringBody rest).map
        (fun p => (Char.ofNat (((ha * 16 + hb) * 16 + hc) * 16 + hd) :: p.1, p.2))
    | _, _, _, _ => none
  | '\\' :: e :: rest =>
    match escChar e with
    | some ec => (parseStringBody rest).map (fun p => (ec :: p.1, p.2))
    | none => none
  | c :: rest =>
    if c.toNat < 32 then none
    else (parseStringBody rest).map (fun p => (c :: p.1, p.2))

/-- Optional exponent part of a JSON number lexeme. -/
def numExp (acc : List Char) (cs : List Char) : List Char × List Char :=
  match cs with
  | e :: r1 =>
    if e == 'e' || e == 'E' then
      match r1 with
      | s :: r2 =>
        if s == '+' || s == '-' then
          match r2.span Char.isDigit with
          | ([], _) => (acc, cs)
          | (ds, r3) => (acc ++ e :: s :: ds, r3)
        else
          match r1.span Char.isDigit with
          | ([], _) => (acc, cs)
          | (ds, r3) => (acc ++ e :: ds, r3)
      | [] => (acc, cs)
    else (acc, cs)
  | [] => (acc, cs)

/-- Optional fraction part (then exponent) of a JSON number lexeme. -/
def numFrac (acc : List Char) (cs : List Char) : List Char × List Char :=
  match cs with
  | '.' :: r1 =>
    match r1.span Char.isDigit with
    | ([], _) => numExp acc ('.' :: r1)
    | (ds, r2) => numExp (acc ++ '.' :: ds) r2
  | _ => numExp acc cs

/-- JSON number lexeme starting at the head of the input. -/
def parseNum (cs : List Char) : Option (List Char × List Char) :=
  match cs with
  | '-' :: c :: r2 =>
    if c == '0' then some (numFrac ['-', c] r2)
    else if c.isDigit then
      match r2.span Char.isDigit with
      | (ds, r3) => some (numFrac ('-' :: c :: ds) r3)
    else none
  | '-' :: [] => none
  | c :: r2 =>
    if c == '0' then some (numFrac [c] r2)
    else if c.isDigit then
      match r2.span Char.isDigit with
      | (ds, r3) => some (numFrac (c :: ds) r3)
    else none
  | [] => none

mutual

/-- Recursive-descent JSON value parser (fuel-indexed; `jsonParse`
supplies enough fuel for any input). -/
def parseVal : Nat → List Char → Option (JVal × List Char)
  | 0, _ => none
  | fuel + 1, cs =>
    match skipWs cs with
    | [] => none
    | '{' :: rest =>
      match skipWs rest with
      | '}' :: r2 => some (JVal.jobj [], r2)
      | r2 => (parseMembers fuel r2).map (fun p => (JVal.jobj p.1, p.2))
    | '[' :: rest =>
      match skipWs rest with
      | ']' :: r2 => some (JVal.jarr [], r2)
      | r2 => (parseItems fuel r2).map (fun p => (JVal.jarr p.1, p.2))
    | '"' :: rest => (parseStringBody rest).map (fun p => (JVal.jstr p.1, p.2))
    | 't' :: rest =>
      if rest.take 3 = ['r', 'u', 'e'] then some (JVal.jbool true, rest.drop 3) else none
    | 'f' :: rest =>
      if rest.take 4 = ['a', 'l', 's', 'e'] then some (JVal.jbool false, rest.drop 4) else none
    | 'n' :: rest =>
      if rest.take 3 = ['u', 'l', 'l'] then some (JVal.jnull, rest.drop 3) else none
    | c :: rest =>
      if c == '-' || c.isDigit then
        (parseNum (c :: rest)).map (fun p => (JVal.jnum p.1, p.2))
      else none

/-- Members of a JSON object after the opening brace (nonempty case). -/
def parseMembers : Nat → List Char → Option (List (List Char × JVal) × List Char)
  | 0, _ => none
  | fuel + 1, cs =>
    match skipWs cs with
    | '"' :: rest =>
      match parseStringBody rest with
      | none => none
      | some (k, r1) =>
        match skipWs r1 with
        | ':' :: r2 =>
          match parseVal fuel r2 with
          | none => none
          | some (v, r3) =>
            match skipWs r3 with
            | ',' :: r4 => (parseMembers fuel r4).map (fun p => ((k, v) :: p.1, p.2))
            | '}' :: r4 => some ([(k, v)], r4)
            | _ => none
        | _ => none
    | _ => none

/-- Items of a JSON array after the opening bracket (nonempty case). -/
def parseItems : Nat → List Char → Option (List JVal × List Char)
  | 0, _ => none
  | fuel + 1, cs =>
    match parseVal fuel cs with
    | none => none
    | some (v, r1) =>
      match skipWs r1 with
      | ',' :: r2 => (parseItems fuel r2).map (fun p => (v :: p.1, p.2))
      | ']' :: r2 => some ([v], r2)
      | _ => none

end

/-- Model of `JSON.parse` on a character list: parse one value and
require that only whitespace remains. -/
def jsonParse (cs : List Char) : Option JVal :=
  match parseVal (cs.length + 1) cs with
  | some (v, r) => if skipWs r = [] then some v else none
  | none => none

/-- A JSON number is falsy in JavaScript exactly when its value is zero:
every mantissa digit of the lexeme is 0 (sign, decimal point and
exponent do not affect zero-ness). -/
def numIsZero (lex : List Char) : Bool :=
  (lex.takeWhile (fun c => c != 'e' && c != 'E')).all
    (fun c => c == '0' || c == '-' || c == '.')

/-- JavaScript truthiness of a parsed JSON value. -/
def jsTruthy : JVal → Bool
  | JVal.jnull => false
  | JVal.jbool b => b
  | JVal.jnum lex => !(numIsZero lex)
  | JVal.jstr s => !s.isEmpty
  | JVal.jarr _ => true
  | JVal.jobj _ => true

/-- JavaScript `typeof x === 'object'` on a parsed JSON value: true for
null, arrays and plain objects. -/
def typeofObject : JVal → Bool
  | JVal.jnull => true
  | JVal.jarr _ => true
  | JVal.jobj _ => true
  | _ => false

/-- JavaScript `Array.isArray`. -/
def isArrJ : JVal → Bool
  | JVal.jarr _ => true
  | _ => false

/-- Property lookup on a JavaScript object: the last binding of a
duplicated key wins. -/
def lookupLast (k : List Char) : List (List Char × JVal) → Option JVal
  | [] => none
  | f :: fs =>
    match lookupLast k fs with
    | some v => some v
    | none => if f.1 = k then some f.2 else none

/-- JavaScript member access `v.k`; `none` models `undefined` (also for
the named properties used here when `v` is an array or a primitive). -/
def jsGet (v : JVal) (k : List Char) : Option JVal :=
  match v with
  | JVal.jobj fs => lookupLast k fs
  | _ => none

/-- JavaScript `k in v` for the string keys used by the validator. -/
def jsHas (v : JVal) (k : List Char) : Bool :=
  match v with
  | JVal.jobj fs => fs.any (fun f => f.1 == k)
  | _ => false

/-- Truthiness of a possibly-undefined value (`undefined` is falsy). -/
def optTruthy : Option JVal → Bool
  | none => false
  | some v => jsTruthy v

/-- `typeof x === 'object'` of a possibly-undefined value
(`typeof undefined` is `'undefined'`). -/
def optTypeofObject : Option JVal → Bool
  | none => false
  | some v => typeofObject v

/-- `Array.isArray` of a possibly-undefined value. -/
def optIsArr : Option JVal → Bool
  | some (JVal.jarr _) => true
  | _ => false

def piKey : List Char := "personalInfo".toList
def expKey : List Char := "experience".toList
def eduKey : List Char := "education".toList
def projKey : List Char := "projects".toList
def skillsKey : List Char := "skills".toList
def techKey : List Char := "technical".toList
def softKey : List Char := "soft".toList
def langKey : List Char := "languages".toList
def certKey : List Char := "certifications".toList

/-- One step of the loops in `AIHandler.validateResumeStructure`:
`if (r[field] && !Array.isArray(r[field])) return false;`. -/
def seqFieldOk (r : JVal) (k : List Char) : Bool :=
  !(optTruthy (jsGet r k)) || optIsArr (jsGet r k)

/-- The `resume.skills` block of `AIHandler.validateResumeStructure`
(src/js/ai-handler.js lines 404-422). -/
def skillsOk (r : JVal) : Bool :=
  if !(optTruthy (jsGet r skillsKey)) then true
  else
    match jsGet r skillsKey with
    | none => true
    | some sk =>
      if typeofObject sk && !(isArrJ sk) then
        seqFieldOk sk techKey && seqFieldOk sk softKey &&
          seqFieldOk sk langKey && seqFieldOk sk certKey
      else if isArrJ sk then true
      else false

/-- `AIHandler.validateResumeStructure` (src/js/ai-handler.js lines
371-426); the early `return false` chain is rendered as nested
conditionals. -/
def validateResumeStructure (resume : JVal) : Bool :=
  if jsTruthy resume && typeofObject resume then
    if jsHas resume piKey then
      if optTruthy (jsGet resume piKey) && optTypeofObject (jsGet resume piKey) then
        if seqFieldOk resume expKey && seqFieldOk resume eduKey &&
            seqFieldOk resume projKey then
          skillsOk resume
        else false
      else false
    else false
  else false

/-- `AgenticAIHandler.validateResumeStructure` (part_002 lines 563-568):
`resume && typeof resume === 'object' && resume.personalInfo &&
typeof resume.personalInfo === 'object'`. -/
def agenticValidateResumeStructure (r : JVal) : Bool :=
  jsTruthy r && typeofObject r &&
    optTruthy (jsGet r piKey) && optTypeofObject (jsGet r piKey)

/-- Backtick character (written via its code point so that the source
contains no raw backtick). -/
def btick : Char := Char.ofNat 96

def fenceMarker : List Char := [btick, btick, btick]

/-- After a closing brace candidate, the pattern requires whitespace
followed by a closing fence. -/
def fenceCloseAfter (cs : List Char) : Bool :=
  fenceMarker.isPrefixOf (cs.dropWhile isJsWs)

/-- Lazy scan for the regex fragment matching the fenced JSON body:
starting after the opening brace, extend the capture one character at a
time and stop at the first closing brace followed by whitespace and a
closing fence. -/
def fenceBody : Nat → List Char → List Char → Option (List Char)
  | 0, _, _ => none
  | _ + 1, _, [] => none
  | fuel + 1, acc, c :: rest =>
    if c == '}' && fenceCloseAfter rest then some (('}' :: acc).reverse)
    else fenceBody fuel (c :: acc) rest

/-- Anchored attempt of the code-block regex of Method 2 of
`parseAIResponse` at the head of the input: an opening fence, an
optional json tag, whitespace, then the lazily captured brace span. -/
def fenceAt (cs : List Char) : Option (List Char) :=
  if fenceMarker.isPrefixOf cs then
    let r1 := cs.drop 3
    let r2 := if (['j', 's', 'o', 'n'] : List Char).isPrefixOf r1 then r1.drop 4 else r1
    match r2.dropWhile isJsWs with
    | '{' :: r4 => fenceBody (r4.length + 1) ['{'] r4
    | _ => none
  else none

/-- Leftmost match of the code-block regex (capture group 1). -/
def codeBlockMatch : List Char → Option (List Char)
  | [] => none
  | c :: rest =>
    match fenceAt (c :: rest) with
    | some m => some m
    | none => codeBlockMatch rest

/-- First match of the greedy pattern of Method 3 of `parseAIResponse`:
the span from the first opening brace to the last closing brace. -/
def jsonMatchFL (cs : List Char) : Option (List Char) :=
  let fromBrace := cs.dropWhile (fun c => c != '{')
  match fromBrace with
  | [] => none
  | _ :: _ =>
    let upToClose := (fromBrace.reverse.dropWhile (fun c => c != '}')).reverse
    match upToClose with
    | [] => none
    | [_] => none
    | m => some m

/-- Loop of the anchored attempt of the Method 4 brace-span regex: the
pattern allows non-brace runs and singly-nested brace pairs, and fails
at deeper nesting just as the regex does. -/
def braceLoop : Nat → List Char → List Char → Option (List Char × List Char)
  | 0, _, _ => none
  | _ + 1, acc, '}' :: r => some (('}' :: acc).reverse, r)
  | fuel + 1, acc, '{' :: r2 =>
    match r2.span (fun c => c != '{' && c != '}') with
    | (b, r3) =>
      match r3 with
      | '}' :: r4 =>
        match r4.span (fun c => c != '{' && c != '}') with
        | (c, r5) => braceLoop fuel (c.reverse ++ '}' :: b.reverse ++ '{' :: acc) r5
      | _ => none
  | _ + 1, _, _ => none

/-- Anchored attempt of the Method 4 regex at the head of the input. -/
def braceSpanAt (cs : List Char) : Option (List Char × List Char) :=
  match cs with
  | '{' :: rest =>
    match rest.span (fun c => c != '{' && c != '}') with
    | (a, r1) => braceLoop (r1.length + 1) (a.reverse ++ ['{']) r1
  | _ => none

/-- Global scan of the Method 4 regex: non-overlapping leftmost
matches. -/
def braceMatchesAux : Nat → List Char → List (List Char)
  | 0, _ => []
  | _, [] => []
  | fuel + 1, c :: rest =>
    match braceSpanAt (c :: rest) with
    | some (m, r) => m :: braceMatchesAux fuel r
    | none => braceMatchesAux fuel rest

def braceMatches (cs : List Char) : List (List Char) := braceMatchesAux cs.length cs

/-- Stable insertion preserving the order of equal lengths, for the
stable `sort((a, b) => b.length - a.length)` of Method 4. -/
def insertByLenDesc (x : List Char) : List (List Char) → List (List Char)
  | [] => [x]
  | y :: ys => if x.length ≤ y.length then y :: insertByLenDesc x ys else x :: y :: ys

def sortByLenDesc (l : List (List Char)) : List (List Char) :=
  l.foldl (fun acc x => insertByLenDesc x acc) []

/-- Method 4 loop body of `parseAIResponse`: parse each candidate span
in order and keep the first that parses and passes
`validateResumeStructure`. -/
def firstValidBrace : List (List Char) → Option JVal
  | [] => none
  | s :: ss =>
    match jsonParse s with
    | some v => if validateResumeStructure v then some v else firstValidBrace ss
    | none => firstValidBrace ss

/-- Validation step at the end of `parseAIResponse` (src/js/ai-handler.js
lines 342-357): a record failing `validateResumeStructure` is still
returned when it is an object with a truthy `personalInfo`; otherwise
the function throws (the outer catch prefixes the message). -/
def finalCheck (v : JVal) : Except String JVal :=
  if validateResumeStructure v then Except.ok v
  else if jsTruthy v && typeofObject v && optTruthy (jsGet v piKey) then Except.ok v
  else Except.error ("Failed to parse AI response: Invalid resume structure returned by AI")

/-- Extraction core of `AIHandler.parseAIResponse` (src/js/ai-handler.js
lines 289-357), as a function of the reply text of the first candidate
(the candidate-structure checks of lines 273-287 precede this and are
not themselves at issue in any claim).  Methods 1-4 are tried in order;
a parse result of Methods 1-3 is taken without validation, Method 4
validates each candidate span. -/
def parseAIResponseText (t : List Char) : Except String JVal :=
  match jsonParse (trimJS t) with
  | some v => finalCheck v
  | none =>
    let p2 : Option JVal :=
      match codeBlockMatch t with
      | some cap => jsonParse cap
      | none => none
    let p3 : Option JVal :=
      match p2 with
      | some v => some v
      | none =>
        match jsonMatchFL t with
        | some m => jsonParse m
        | none => none
    let p4 : Option JVal :=
      match p3 with
      | some v => some v
      | none => firstValidBrace (sortByLenDesc (braceMatches t))
    match p4 with
    | some v => finalCheck v
    | none => Except.error ("Failed to parse AI response: Could not extract valid JSON from AI response")

/-- The `extractJSON` method shared (textually identically) by
`JobAnalyzerAgent`, `ResumeOptimizerAgent` and `QualityValidatorAgent`
(part_002 lines 662-678, 771-787, 835-851): direct parse of the trimmed
text, then the greedy first-to-last-brace span; the result of a direct
parse is returned with no shape check.  The argument is the list of
candidate texts of the model response; a parse failure of the brace
span rethrows the engine's SyntaxError, modelled by a fixed placeholder
message. -/
def agentExtractJSON : List (List Char) → Except String JVal
  | [] => Except.error ("No response candidates")
  | t :: _ =>
    match jsonParse (trimJS t) with
    | some v => Except.ok v
    | none =>
      match jsonMatchFL t with
      | some m =>
        match jsonParse m with
        | some v => Except.ok v
        | none => Except.error ("SyntaxError")
      | none => Except.error ("No valid JSON found")

/-- Outcome of one `fetch` attempt inside `callGeminiAPI`
(src/js/ai-handler.js lines 230-251, identical in part_002 lines
524-545): a network failure, a non-2xx response, a 2xx body carrying a
provider error field, or a success body.  A success body is the list of
candidate texts (each candidate's first text part). -/
inductive AttemptOutcome where
  | netFail : String → AttemptOutcome
  | httpFail : Nat → String → String → AttemptOutcome
  | bodyError : String → AttemptOutcome
  | success : List (List Char) → AttemptOutcome

/-- Result of the try-block of one attempt: the thrown error message or
the returned data (lines 232-251). -/
def attemptResult : AttemptOutcome → Except String (List (List Char))
  | AttemptOutcome.netFail m => Except.error m
  | AttemptOutcome.httpFail status statusText m =>
    Except.error ("API request failed: " ++ toString status ++ " " ++ statusText ++ " - " ++ m)
  | AttemptOutcome.bodyError m => Except.error ("API error: " ++ m)
  | AttemptOutcome.success b => Except.ok b

/-- Message of the error thrown when the retry budget is spent (line
263). -/
def exhaustedMsg (attempts : Nat) (lastMsg : String) : String :=
  "API call failed after " ++ toString attempts ++ " attempts. Last error: " ++ lastMsg

/-- The retry loop `for (attempt = 1; attempt <= maxRetries; attempt++)`
of `callGeminiAPI`, counted down by the number of remaining iterations.
Returns the result together with the total artificial delay awaited
(`delay(retryDelay * attempt)` runs only when `attempt < maxRetries`)
and the number of attempts performed. -/
def callGo (outcomes : Nat → AttemptOutcome) (maxRetries retryDelay : Nat) :
    Nat → Nat → String → Except String (List (List Char)) × Nat × Nat
  | 0, _, lastError => (Except.error (exhaustedMsg maxRetries lastError), 0, 0)
  | remaining + 1, attempt, _ =>
    match attemptResult (outcomes attempt) with
    | Except.ok b => (Except.ok b, 0, 1)
    | Except.error m =>
      let d := if attempt < maxRetries then retryDelay * attempt else 0
      let r := callGo outcomes maxRetries retryDelay remaining (attempt + 1) m
      (r.1, d + r.2.1, r.2.2 + 1)

/-- `callGeminiAPI` as a function of the per-attempt outcomes, with the
instance fields `maxRetries` and `retryDelay` as parameters (defaults 3
and 1000 in both constructors).  The initial last-error slot is unused
whenever `maxRetries ≥ 1`. -/
def callGeminiAPI (outcomes : Nat → AttemptOutcome) (maxRetries retryDelay : Nat) :
    Except String (List (List Char)) × Nat × Nat :=
  callGo outcomes maxRetries retryDelay maxRetries 1 ("")

/-- State threaded through one pipeline run: the number of
`callGeminiAPI` invocations so far, the progress events emitted so far,
and the caller-owned inputs (carried in the state so that their
preservation is a statement about the run, not about the metatheory). -/
structure PState where
  nCalls : Nat
  events : List (ℚ × String)
  resumeIn : JVal
  jobDesc : String
  industry : String

def emit (pct : ℚ) (msg : String) (st : PState) : PState :=
  { st with events := st.events ++ [(pct, msg)] }

/-- Record that one `callGeminiAPI` invocation was made. -/
def bump (st : PState) : PState := { st with nCalls := st.nCalls + 1 }

def mkState (r : JVal) (jd it : String) : PState :=
  { nCalls := 0, events := [], resumeIn := r, jobDesc := jd, industry := it }

/-- A per-stage progress callback as passed to the agents. -/
abbrev ProgressCB := ℚ → String → PState → PState

/-- Composition performed by each stage try-block: one `callGeminiAPI`
invocation (abstracted as the oracle `api` at the current call index)
followed by the agent's `extractJSON`. -/
def fetchExtract (api : Nat → Except String (List (List Char))) (n : Nat) :
    Except String JVal :=
  match api n with
  | Except.error e => Except.error e
  | Except.ok body => agentExtractJSON body

/-- `JobAnalyzerAgent.analyzeJob` (part_002 lines 617-660): progress
25/50, the model call, progress 75, extraction, progress 100; any error
is wrapped with the stage prefix. -/
def analyzeJob (api : Nat → Except String (List (List Char))) (cb : ProgressCB)
    (st : PState) : Except String JVal × PState :=
  let st1 := cb 25 ("Extracting key requirements...") st
  let st2 := cb 50 ("Processing job requirements...") st1
  match api st2.nCalls with
  | Except.error e => (Except.error ("Job analysis failed: " ++ e), bump st2)
  | Except.ok body =>
    let st3 := cb 75 ("Analyzing company culture fit...") (bump st2)
    match agentExtractJSON body with
    | Except.error e => (Except.error ("Job analysis failed: " ++ e), st3)
    | Except.ok a => (Except.ok a, cb 100 ("Job analysis complete") st3)

/-- `ResumeOptimizerAgent.createStrategy` (part_002 lines 686-732):
progress 20/60, the model call, progress 100, then extraction (the 100%
event precedes extraction in the source). -/
def createStrategy (api : Nat → Except String (List (List Char))) (cb : ProgressCB)
    (st : PState) : Except String JVal × PState :=
  let st1 := cb 20 ("Creating optimization strategy...") st
  let st2 := cb 60 ("Analyzing optimization opportunities...") st1
  match api st2.nCalls with
  | Except.error e => (Except.error ("Strategy creation failed: " ++ e), bump st2)
  | Except.ok body =>
    let st3 := cb 100 ("Strategy created") (bump st2)
    match agentExtractJSON body with
    | Except.error e => (Except.error ("Strategy creation failed: " ++ e), st3)
    | Except.ok s => (Except.ok s, st3)

/-- `ResumeOptimizerAgent.applyOptimizations` (part_002 lines 734-769):
progress 10/50, the model call, progress 80, extraction, progress
100. -/
def applyOptimizations (api : Nat → Except String (List (List Char))) (cb : ProgressCB)
    (st : PState) : Except String JVal × PState :=
  let st1 := cb 10 ("Applying keyword optimizations...") st
  let st2 := cb 50 ("Enhancing descriptions...") st1
  match api st2.nCalls with
  | Except.error e => (Except.error ("Optimization application failed: " ++ e), bump st2)
  | Except.ok body =>
    let st3 := cb 80 ("Applying final optimizations...") (bump st2)
    match agentExtractJSON body with
    | Except.error e => (Except.error ("Optimization application failed: " ++ e), st3)
    | Except.ok o => (Except.ok o, cb 100 ("Optimizations applied") st3)

/-- `QualityValidatorAgent.validateAndRefine` (part_002 lines 795-833):
progress 25/60, the model call, progress 90, extraction, progress
100. -/
def validateAndRefine (api : Nat → Except String (List (List Char))) (cb : ProgressCB)
    (st : PState) : Except String JVal × PState :=
  let st1 := cb 25 ("Validating resume quality...") st
  let st2 := cb 60 ("Refining content quality...") st1
  match api st2.nCalls with
  | Except.error e => (Except.error ("Quality validation failed: " ++ e), bump st2)
  | Except.ok body =>
    let st3 := cb 90 ("Final validation checks...") (bump st2)
    match agentExtractJSON body with
    | Except.error e => (Except.error ("Quality validation failed: " ++ e), st3)
    | Except.ok v => (Except.ok v, cb 100 ("Quality validation complete") st3)

/-- Stage-1 sub-progress reweighting of the orchestrator:
`progressCallback(5 + progress * 0.15, message)`. -/
def stage1Global (p : ℚ) : ℚ := 5 + p * (15 / 100)

/-- Stage-2 reweighting: `20 + progress * 0.20`. -/
def stage2Global (p : ℚ) : ℚ := 20 + p * (20 / 100)

/-- Stage-3 reweighting: `40 + progress * 0.30`. -/
def stage3Global (p : ℚ) : ℚ := 40 + p * (30 / 100)

/-- Stage-4 reweighting: `70 + progress * 0.20`. -/
def stage4Global (p : ℚ) : ℚ := 70 + p * (20 / 100)

/-- `AgenticAIHandler.customizeResumeWithAgents` (part_002 lines
420-479): the four stages in sequence, each receiving the reweighted
progress callback; any stage error (and a failed final structural
validation) is wrapped by the outer catch into
`Agentic customization failed: ...`. -/
def customizeResumeWithAgents (api : Nat → Except String (List (List Char)))
    (st0 : PState) : Except String JVal × PState :=
  let stA := emit 5 ("Analyzing job requirements...") st0
  match analyzeJob api (fun p m s => emit (stage1Global p) m s) stA with
  | (Except.error e, st) => (Except.error ("Agentic customization failed: " ++ e), st)
  | (Except.ok _jobAnalysis, st1) =>
    let stB := emit 20 ("Creating optimization strategy...") st1
    match createStrategy api (fun p m s => emit (stage2Global p) m s) stB with
    | (Except.error e, st) => (Except.error ("Agentic customization failed: " ++ e), st)
    | (Except.ok _strategy, st2) =>
      let stC := emit 40 ("Applying resume optimizations...") st2
      match applyOptimizations api (fun p m s => emit (stage3Global p) m s) stC with
      | (Except.error e, st) => (Except.error ("Agentic customization failed: " ++ e), st)
      | (Except.ok _optimized, st3) =>
        let stD := emit 70 ("Validating and refining results...") st3
        match validateAndRefine api (fun p m s => emit (stage4Global p) m s) stD with
        | (Except.error e, st) => (Except.error ("Agentic customization failed: " ++ e), st)
        | (Except.ok finalResume, st4) =>
          let stE := emit 90 ("Finalizing customized resume...") st4
          if agenticValidateResumeStructure finalResume then
            (Except.ok finalResume, emit 100 ("Resume customization complete!") stE)
          else
            (Except.error ("Agentic customization failed: Final resume validation failed"), stE)

/-- Reply used against claim C1: a fenced candidate that parses but
fails schema validation (non-sequence `experience`) followed by a later
candidate that parses and validates. -/
def c1cexText : String :=
  "```json\n\x7b\"personalInfo\":\x7b\x7d,\"experience\":\"bad\"\x7d\n``` \x7b\"personalInfo\":\x7b\x7d,\"experience\":[]\x7d"

def c1cexBad : JVal :=
  JVal.jobj [(piKey, JVal.jobj []), (expKey, JVal.jstr ("bad".toList))]

def c1cexGood : JVal :=
  JVal.jobj [(piKey, JVal.jobj []), (expKey, JVal.jarr [])]

/-- Representative replies of the four extraction fallback forms. -/
def c1FormRaw : String := "\x7b\"personalInfo\":\x7b\"name\":\"A\"\x7d,\"summary\":\"s\"\x7d"

def c1FormFenced : String := "Here it is:\n```json\n" ++ c1FormRaw ++ "\n```\nThanks."

def c1FormProse : String := "The resume: " ++ c1FormRaw ++ " Done."

def c1FormMulti : String := "x \x7b\"a\":1\x7d y " ++ c1FormRaw ++ " z"

def c1FormVal : JVal :=
  JVal.jobj [(piKey, JVal.jobj [("name".toList, JVal.jstr ("A".toList))]),
    ("summary".toList, JVal.jstr ("s".toList))]

/-- Attempt outcomes used as the witness for claim C2: attempts 1 and 2
fail, attempt 3 succeeds. -/
def c2Outcomes : Nat → AttemptOutcome
  | 1 => AttemptOutcome.netFail ("boom1")
  | 2 => AttemptOutcome.httpFail 500 ("Internal Server Error") ("Unknown error")
  | _ => AttemptOutcome.success [("ok".toList)]

/-- Attempt outcomes used as the witness for claim C3: every attempt
fails. -/
def c3Outcomes : Nat → AttemptOutcome :=
  fun n => AttemptOutcome.netFail ("fail" ++ toString n)

/-- Oracle used as the witness for claim C4: stages 1 and 2 extract an
empty object, the third call returns a response with no candidates so
the apply sub-stage fails. -/
def apiC4 : Nat → Except String (List (List Char))
  | 0 => Except.ok [("\x7b\x7d".toList)]
  | 1 => Except.ok [("\x7b\x7d".toList)]
  | _ => Except.ok []

def c5cexVal : JVal := JVal.jobj [(piKey, JVal.jobj []), (expKey, JVal.jstr [])]

def c5wVal : JVal := JVal.jobj [(piKey, JVal.jobj []), (expKey, JVal.jarr [JVal.jobj []])]

def c5wSk : JVal := JVal.jobj [(techKey, JVal.jarr [JVal.jstr ("Go".toList)])]

def c5wVal2 : JVal := JVal.jobj [(piKey, JVal.jobj []), (skillsKey, c5wSk)]

/-- Oracle used as the witness for claim C6: every stage extracts a
record with a `personalInfo` object, so the run succeeds. -/
def apiC6 : Nat → Except String (List (List Char)) :=
  fun _ => Except.ok [("\x7b\"personalInfo\":\x7b\x7d\x7d".toList)]

/-- Oracle whose stages all extract `null`, so the final structural
validation fails. -/
def apiC6b : Nat → Except String (List (List Char)) :=
  fun _ => Except.ok [("null".toList)]

/-- Oracle of an all-successful run (every stage extracts a record with
a `personalInfo` object), used for the progress-trace claims. -/
def c7Api : Nat → Except String (List (List Char)) :=
  fun _ => Except.ok [("\x7b\"personalInfo\":\x7b\x7d\x7d".toList)]

def c7Run : Except String JVal × PState :=
  customizeResumeWithAgents c7Api (mkState (JVal.jobj []) ("") (""))

def c9cexText : String := "\x7b\"personalInfo\":null\x7d"

def c9cexVal : JVal := JVal.jobj [(piKey, JVal.jnull)]

def c9wText : String := "\x7b\"personalInfo\":\x7b\x7d,\"education\":\"bad\"\x7d"

def c9wVal : JVal :=
  JVal.jobj [(piKey, JVal.jobj []), (eduKey, JVal.jstr ("bad".toList))]

@[simp] theorem emit_nCalls (p : ℚ) (m : String) (st : PState) :
    (emit p m st).nCalls = st.nCalls := rfl

@[simp] theorem emit_resumeIn (p : ℚ) (m : String) (st : PState) :
    (emit p m st).resumeIn = st.resumeIn := rfl

@[simp] theorem emit_jobDesc (p : ℚ) (m : String) (st : PState) :
    (emit p m st).jobDesc = st.jobDesc := rfl

@[simp] theorem emit_industry (p : ℚ) (m : String) (st : PState) :
    (emit p m st).industry = st.industry := rfl

@[simp] theorem emit_events (p : ℚ) (m : String) (st : PState) :
    (emit p m st).events = st.events ++ [(p, m)] := rfl

@[simp] theorem bump_nCalls (st : PState) : (bump st).nCalls = st.nCalls + 1 := rfl

@[simp] theorem bump_resumeIn (st : PState) : (bump st).resumeIn = st.resumeIn := rfl

@[simp] theorem bump_jobDesc (st : PState) : (bump st).jobDesc = st.jobDesc := rfl

@[simp] theorem bump_industry (st : PState) : (bump st).industry = st.industry := rfl

@[simp] theorem bump_events (st : PState) : (bump st).events = st.events := rfl

@[simp] theorem mkState_nCalls (r : JVal) (jd it : String) : (mkState r jd it).nCalls = 0 := rfl

/-- A record accepted by `validateResumeStructure` is a truthy object
with a truthy, object-typed `personalInfo` member. -/
theorem validate_core {v : JVal} (hv : validateResumeStructure v = true) :
    jsTruthy v = true ∧ typeofObject v = true ∧ jsHas v piKey = true ∧
      optTruthy (jsGet v piKey) = true ∧ optTypeofObject (jsGet v piKey) = true := by
  unfold validateResumeStructure at hv
  by_cases h1 : (jsTruthy v && typeofObject v) = true
  · by_cases h2 : jsHas v piKey = true
    · by_cases h3 : (optTruthy (jsGet v piKey) && optTypeofObject (jsGet v piKey)) = true
      · have e1 := (Bool.and_eq_true _ _).mp h1
        have e3 := (Bool.and_eq_true _ _).mp h3
        exact ⟨e1.1, e1.2, h2, e3.1, e3.2⟩
      · rw [if_pos h1, if_pos h2, if_neg h3] at hv
        exact Bool.noConfusion hv
    · rw [if_pos h1, if_neg h2] at hv
      exact Bool.noConfusion hv
  · rw [if_neg h1] at hv
    exact Bool.noConfusion hv

/-- A record accepted by `validateResumeStructure` passes the
non-sequence checks on `experience`, `education` and `projects`. -/
theorem validate_seq {v : JVal} (hv : validateResumeStructure v = true) :
    seqFieldOk v expKey = true ∧ seqFieldOk v eduKey = true ∧ seqFieldOk v projKey = true := by
  unfold validateResumeStructure at hv
  by_cases h1 : (jsTruthy v && typeofObject v) = true
  · by_cases h2 : jsHas v piKey = true
    · by_cases h3 : (optTruthy (jsGet v piKey) && optTypeofObject (jsGet v piKey)) = true
      · by_cases h4 : (seqFieldOk v expKey && seqFieldOk v eduKey && seqFieldOk v projKey) = true
        · have e4 := (Bool.and_eq_true _ _).mp h4
          have e5 := (Bool.and_eq_true _ _).mp e4.1
          exact ⟨e5.1, e5.2, e4.2⟩
        · rw [if_pos h1, if_pos h2, if_pos h3, if_neg h4] at hv
          exact Bool.noConfusion hv
      · rw [if_pos h1, if_pos h2, if_neg h3] at hv
        exact Bool.noConfusion hv
    · rw [if_pos h1, if_neg h2] at hv
      exact Bool.noConfusion hv
  · rw [if_neg h1] at hv
    exact Bool.noConfusion hv

/-- A record accepted by `validateResumeStructure` passes the skills
block of the validator. -/
theorem validate_skills {v : JVal} (hv : validateResumeStructure v = true) :
    skillsOk v = true := by
  unfold validateResumeStructure at hv
  by_cases h1 : (jsTruthy v && typeofObject v) = true
  · by_cases h2 : jsHas v piKey = true
    · by_cases h3 : (optTruthy (jsGet v piKey) && optTypeofObject (jsGet v piKey)) = true
      · by_cases h4 : (seqFieldOk v expKey && seqFieldOk v eduKey && seqFieldOk v projKey) = true
        · rw [if_pos h1, if_pos h2, if_pos h3, if_pos h4] at hv
          exact hv
        · rw [if_pos h1, if_pos h2, if_pos h3, if_neg h4] at hv
          exact Bool.noConfusion hv
      · rw [if_pos h1, if_pos h2, if_neg h3] at hv
        exact Bool.noConfusion hv
    · rw [if_pos h1, if_neg h2] at hv
      exact Bool.noConfusion hv
  · rw [if_neg h1] at hv
    exact Bool.noConfusion hv

/-- Claim C1, counterexample: on the reply `c1cexText` the extractor of
`parseAIResponse` returns the fenced candidate `c1cexBad`, which fails
`validateResumeStructure`, even though a later candidate brace span of
the same reply (`c1cexGood`, found by the extractor's own Method-4
enumeration) parses and validates.  The extractor therefore can return
a non-schema-conforming candidate while a later valid candidate exists
in the reply. -/
theorem C1_cex :
    parseAIResponseText c1cexText.toList = Except.ok c1cexBad ∧
    validateResumeStructure c1cexBad = false ∧
    firstValidBrace (sortByLenDesc (braceMatches c1cexText.toList)) = some c1cexGood ∧
    validateResumeStructure c1cexGood = true :=
  ⟨rfl, rfl, rfl, rfl⟩

/-- Claim C1 as amended: on representative replies of each of the four
extraction fallback forms (raw JSON, fenced JSON, embedded JSON amid
prose, multiple candidate brace spans with only one valid) the
extractor returns the correct record, and the returned record of the
multi-span form passes structural validation; the
never-return-an-invalid-candidate guarantee holds only for the Method-4
enumeration, not when an earlier strategy yields a parseable candidate
with a truthy personalInfo (see the counterexample). -/
theorem C1_amended :
    parseAIResponseText c1FormRaw.toList = Except.ok c1FormVal ∧
    parseAIResponseText c1FormFenced.toList = Except.ok c1FormVal ∧
    parseAIResponseText c1FormProse.toList = Except.ok c1FormVal ∧
    parseAIResponseText c1FormMulti.toList = Except.ok c1FormVal ∧
    validateResumeStructure c1FormVal = true :=
  ⟨rfl, rfl, rfl, rfl, rfl⟩

/-- Claim C5, counterexample: a record whose `experience` field is
present and bound to a non-sequence value (the empty string) passes
`validateResumeStructure`, because the truthiness guard skips falsy
bindings; the claim says every present non-sequence binding is
rejected. -/
theorem C5_cex :
    validateResumeStructure c5cexVal = true ∧
    jsGet c5cexVal expKey = some (JVal.jstr []) ∧
    isArrJ (JVal.jstr []) = false :=
  ⟨rfl, rfl, rfl⟩

/-- Claim C5 as amended: the validator accepts a record only if
`personalInfo` is present, truthy and object-typed and every
sequence-declared field that is present with a truthy value is a
sequence — `experience`, `education`, `projects`, and skills' named
sub-lists (`technical`, `soft`, `languages`, `certifications`) when
`skills` is object-typed and not itself an array (falsy bindings such
as `""`, `0`, `false`, `null` are tolerated); a record with
`personalInfo` present and `experience` bound to a truthy non-sequence
is rejected, and the same record with `experience` omitted is
accepted. -/
theorem C5_thm :
    validateResumeStructure (JVal.jobj [(piKey, JVal.jobj []),
        (expKey, JVal.jstr ("oops".toList))]) = false ∧
    validateResumeStructure (JVal.jobj [(piKey, JVal.jobj [])]) = true ∧
    (∀ v : JVal, validateResumeStructure v = true →
      jsHas v piKey = true ∧ optTruthy (jsGet v piKey) = true ∧
        optTypeofObject (jsGet v piKey) = true ∧
        (∀ k : List Char, k = expKey ∨ k = eduKey ∨ k = projKey →
          optTruthy (jsGet v k) = true → optIsArr (jsGet v k) = true)) ∧
    (∀ v sk : JVal, validateResumeStructure v = true →
      jsGet v skillsKey = some sk →
      typeofObject sk = true → isArrJ sk = false →
      ∀ k : List Char, k = techKey ∨ k = softKey ∨ k = langKey ∨ k = certKey →
        optTruthy (jsGet sk k) = true → optIsArr (jsGet sk k) = true) := by
  refine ⟨rfl, rfl, ?_, ?_⟩
  · intro v hv
    have hc := validate_core hv
    have hs := validate_seq hv
    refine ⟨hc.2.2.1, hc.2.2.2.1, hc.2.2.2.2, ?_⟩
    intro k hk ht
    have hsk : seqFieldOk v k = true := by
      rcases hk with h | h | h
      · rw [h]; exact hs.1
      · rw [h]; exact hs.2.1
      · rw [h]; exact hs.2.2
    unfold seqFieldOk at hsk
    rw [ht] at hsk
    simpa using hsk
  · intro v sk hv hsk hobj harr k hk ht
    have hso := validate_skills hv
    unfold skillsOk at hso
    rw [hsk] at hso
    by_cases htr : jsTruthy sk = true
    · simp only [optTruthy, htr, hobj, harr, Bool.not_true, Bool.not_false, Bool.true_and,
        Bool.false_eq_true, if_false, if_true] at hso
      have e1 := (Bool.and_eq_true _ _).mp hso
      have e2 := (Bool.and_eq_true _ _).mp e1.1
      have e3 := (Bool.and_eq_true _ _).mp e2.1
      have hsf : seqFieldOk sk k = true := by
        rcases hk with h | h | h | h
        · rw [h]; exact e3.1
        · rw [h]; exact e3.2
        · rw [h]; exact e2.2
        · rw [h]; exact e1.2
      unfold seqFieldOk at hsf
      rw [ht] at hsf
      simpa using hsf
    · exfalso
      cases sk with
      | jnull => exact Bool.noConfusion ht
      | jbool b => exact Bool.noConfusion hobj
      | jnum l => exact Bool.noConfusion hobj
      | jstr s => exact Bool.noConfusion hobj
      | jarr xs => exact Bool.noConfusion harr
      | jobj fs => exact htr rfl

/-- Witness for the amended claim C5 at concrete records: one whose
truthy `experience` is a sequence and one whose object-typed `skills`
holds a truthy `technical` sub-list that is a sequence. -/
theorem C5_witness :
    validateResumeStructure c5wVal = true ∧ optTruthy (jsGet c5wVal expKey) = true ∧
      optIsArr (jsGet c5wVal expKey) = true ∧
    validateResumeStructure c5wVal2 = true ∧ jsGet c5wVal2 skillsKey = some c5wSk ∧
      optTruthy (jsGet c5wSk techKey) = true ∧ optIsArr (jsGet c5wSk techKey) = true :=
  ⟨rfl, rfl, (C5_thm.2.2.1 c5wVal rfl).2.2.2 expKey (Or.inl rfl) rfl,
    rfl, rfl, rfl,
    C5_thm.2.2.2 c5wVal2 c5wSk rfl rfl rfl rfl techKey (Or.inl rfl) rfl⟩

/-- Claim C9 as amended: whenever the whole trimmed reply parses
directly (Method 1), `parseAIResponse` returns the parsed record
exactly when the record is a truthy object with a truthy
`personalInfo`; in particular it returns records that the structural
validator rejects, and the throw happens only when the parsed result is
not an object or its `personalInfo` is absent or falsy (`null`,
`false`, `0`, `""`). -/
theorem C9_thm (t : List Char) (v : JVal) (hp : jsonParse (trimJS t) = some v) :
    parseAIResponseText t = Except.ok v ↔
      (jsTruthy v && typeofObject v && optTruthy (jsGet v piKey)) = true := by
  have hstep : parseAIResponseText t = finalCheck v := by
    unfold parseAIResponseText
    rw [hp]
  rw [hstep]
  unfold finalCheck
  by_cases hv : validateResumeStructure v = true
  · have hc := validate_core hv
    rw [if_pos hv]
    constructor
    · intro _
      rw [hc.1, hc.2.1, hc.2.2.2.1]
      rfl
    · intro _
      rfl
  · rw [if_neg hv]
    by_cases hcond : (jsTruthy v && typeofObject v && optTruthy (jsGet v piKey)) = true
    · rw [if_pos hcond]
      exact ⟨fun _ => hcond, fun _ => rfl⟩
    · rw [if_neg hcond]
      constructor
      · intro h
        exact Except.noConfusion h
      · intro h
        exact absurd h hcond

/-- Witness for the amended claim C9: a record with a truthy
`personalInfo` but a non-sequence `education` is rejected by the
validator yet returned by `parseAIResponse`. -/
theorem C9_witness :
    jsonParse (trimJS c9wText.toList) = some c9wVal ∧
    validateResumeStructure c9wVal = false ∧
    parseAIResponseText c9wText.toList = Except.ok c9wVal :=
  ⟨rfl, rfl, (C9_thm c9wText.toList c9wVal rfl).mpr rfl⟩

/-- Claim C9, counterexample: a reply whose payload parses to an object
that contains a `personalInfo` field bound to `null` is an object
containing a personalInfo field, yet `parseAIResponse` throws instead
of returning it (the claim asserts a throw happens only when the result
is not an object or lacks the field). -/
theorem C9_cex :
    jsonParse (trimJS c9cexText.toList) = some c9cexVal ∧
    jsHas c9cexVal piKey = true ∧
    parseAIResponseText c9cexText.toList =
      Except.error ("Failed to parse AI response: Invalid resume structure returned by AI") :=
  ⟨rfl, rfl, rfl⟩

/-- Claim C10: each stage agent's `extractJSON` returns a directly
parsed reply unchanged, with no shape check: replies `null`, a number,
a string and an array are all returned as the stage record. -/
theorem C10_thm :
    (∀ (t : List Char) (v : JVal), jsonParse (trimJS t) = some v →
      agentExtractJSON [t] = Except.ok v) ∧
    agentExtractJSON [("null".toList)] = Except.ok JVal.jnull ∧
    agentExtractJSON [("7".toList)] = Except.ok (JVal.jnum ("7".toList)) ∧
    agentExtractJSON [("\"hi\"".toList)] = Except.ok (JVal.jstr ("hi".toList)) ∧
    agentExtractJSON [("[1,2]".toList)] =
      Except.ok (JVal.jarr [JVal.jnum ("1".toList), JVal.jnum ("2".toList)]) := by
  refine ⟨?_, rfl, rfl, rfl, rfl⟩
  intro t v hp
  show (match jsonParse (trimJS t) with
    | some v => Except.ok v
    | none =>
      match jsonMatchFL t with
      | some m =>
        match jsonParse m with
        | some v => Except.ok v
        | none => Except.error ("SyntaxError")
      | none => Except.error ("No valid JSON found")) = Except.ok v
  rw [hp]

/-- Witness for claim C10 at the concrete reply `null`. -/
theorem C10_witness :
    jsonParse (trimJS ("null".toList)) = some JVal.jnull ∧
    agentExtractJSON [("null".toList)] = Except.ok JVal.jnull :=
  ⟨rfl, C10_thm.1 ("null".toList) JVal.jnull rfl⟩

/-- Unfolding lemma for `callGo` when the retry budget is spent. -/
theorem callGo_zero (outcomes : Nat → AttemptOutcome) (maxR rd attempt : Nat) (lastE : String) :
    callGo outcomes maxR rd 0 attempt lastE =
      (Except.error (exhaustedMsg maxR lastE), 0, 0) := rfl

/-- Unfolding lemma for `callGo` on a successful attempt. -/
theorem callGo_ok {outcomes : Nat → AttemptOutcome} {attempt : Nat} {b : List (List Char)}
    (maxR rd remaining : Nat) (lastE : String)
    (h : attemptResult (outcomes attempt) = Except.ok b) :
    callGo outcomes maxR rd (remaining + 1) attempt lastE = (Except.ok b, 0, 1) := by
  rw [callGo, h]

/-- Unfolding lemma for `callGo` on a failing attempt. -/
theorem callGo_step {outcomes : Nat → AttemptOutcome} {attempt : Nat} {m : String}
    (maxR rd remaining : Nat) (lastE : String)
    (h : attemptResult (outcomes attempt) = Except.error m) :
    callGo outcomes maxR rd (remaining + 1) attempt lastE =
      ((callGo outcomes maxR rd remaining (attempt + 1) m).1,
        (if attempt < maxR then rd * attempt else 0) +
          (callGo outcomes maxR rd remaining (attempt + 1) m).2.1,
        (callGo outcomes maxR rd remaining (attempt + 1) m).2.2 + 1) := by
  rw [callGo, h]

/-- Claim C2: when attempts 1 and 2 fail and attempt 3 returns a
success body, `callGeminiAPI` (at its defaults, 3 retries and a 1000 ms
base delay) returns that body after exactly 3 attempts, and the total
artificial delay is `1000 * 1 + 1000 * 2` — linear in the attempt
number, not exponential. -/
theorem C2_thm (outcomes : Nat → AttemptOutcome) (m1 m2 : String) (b : List (List Char))
    (h1 : attemptResult (outcomes 1) = Except.error m1)
    (h2 : attemptResult (outcomes 2) = Except.error m2)
    (h3 : attemptResult (outcomes 3) = Except.ok b) :
    callGeminiAPI outcomes 3 1000 = (Except.ok b, 1000 * 1 + 1000 * 2, 3) := by
  show callGo outcomes 3 1000 (2 + 1) 1 ("") = _
  rw [callGo_step 3 1000 2 ("") h1, callGo_step 3 1000 1 m1 h2, callGo_ok 3 1000 0 m2 h3]
  rfl

/-- Witness for claim C2 at concrete attempt outcomes. -/
theorem C2_witness :
    attemptResult (c2Outcomes 1) = Except.error ("boom1") ∧
    attemptResult (c2Outcomes 3) = Except.ok [("ok".toList)] ∧
    callGeminiAPI c2Outcomes 3 1000 = (Except.ok [("ok".toList)], 1000 * 1 + 1000 * 2, 3) :=
  ⟨rfl, rfl,
    C2_thm c2Outcomes ("boom1")
      ("API request failed: 500 Internal Server Error - Unknown error")
      [("ok".toList)] rfl rfl rfl⟩

/-- Claim C3: when all three attempts of `callGeminiAPI` (defaults)
fail, exactly 3 attempts are made and the thrown message carries the
attempt count and the message of the last underlying error; a success
body on attempt k (after failures before it) is returned immediately
after exactly k attempts with no further attempt. -/
theorem C3_thm :
    (∀ (outcomes : Nat → AttemptOutcome) (m1 m2 m3 : String),
      attemptResult (outcomes 1) = Except.error m1 →
      attemptResult (outcomes 2) = Except.error m2 →
      attemptResult (outcomes 3) = Except.error m3 →
      callGeminiAPI outcomes 3 1000 =
        (Except.error (exhaustedMsg 3 m3), 1000 * 1 + 1000 * 2, 3)) ∧
    (∀ (outcomes : Nat → AttemptOutcome) (b : List (List Char)),
      attemptResult (outcomes 1) = Except.ok b →
      callGeminiAPI outcomes 3 1000 = (Except.ok b, 0, 1)) ∧
    (∀ (outcomes : Nat → AttemptOutcome) (m1 : String) (b : List (List Char)),
      attemptResult (outcomes 1) = Except.error m1 →
      attemptResult (outcomes 2) = Except.ok b →
      callGeminiAPI outcomes 3 1000 = (Except.ok b, 1000 * 1, 2)) ∧
    (∀ (outcomes : Nat → AttemptOutcome) (m1 m2 : String) (b : List (List Char)),
      attemptResult (outcomes 1) = Except.error m1 →
      attemptResult (outcomes 2) = Except.error m2 →
      attemptResult (outcomes 3) = Except.ok b →
      callGeminiAPI outcomes 3 1000 = (Except.ok b, 1000 * 1 + 1000 * 2, 3)) := by
  refine ⟨?_, ?_, ?_, ?_⟩
  · intro outcomes m1 m2 m3 h1 h2 h3
    show callGo outcomes 3 1000 (2 + 1) 1 ("") = _
    rw [callGo_step 3 1000 2 ("") h1, callGo_step 3 1000 1 m1 h2,
      callGo_step 3 1000 0 m2 h3, callGo_zero]
    rfl
  · intro outcomes b h1
    show callGo outcomes 3 1000 (2 + 1) 1 ("") = _
    rw [callGo_ok 3 1000 2 ("") h1]
  · intro outcomes m1 b h1 h2
    show callGo outcomes 3 1000 (2 + 1) 1 ("") = _
    rw [callGo_step 3 1000 2 ("") h1, callGo_ok 3 1000 1 m1 h2]
    rfl
  · intro outcomes m1 m2 b h1 h2 h3
    show callGo outcomes 3 1000 (2 + 1) 1 ("") = _
    rw [callGo_step 3 1000 2 ("") h1, callGo_step 3 1000 1 m1 h2, callGo_ok 3 1000 0 m2 h3]
    rfl

/-- Witness for claim C3 at concrete all-failing outcomes. -/
theorem C3_witness :
    attemptResult (c3Outcomes 3) = Except.error ("fail3") ∧
    callGeminiAPI c3Outcomes 3 1000 =
      (Except.error (exhaustedMsg 3 ("fail3")), 1000 * 1 + 1000 * 2, 3) :=
  ⟨rfl, C3_thm.1 c3Outcomes ("fail1") ("fail2") ("fail3") rfl rfl rfl⟩

/-- Claim C4: when stages 1 and 2 succeed and the apply sub-stage
fails, the pipeline surfaces an error naming the apply stage with its
underlying cause, exactly 3 model calls were made (so the validator
stage is never invoked and no stage is retried), the two earlier stage
completions were recorded, and no validator-stage or 100% progress
event is ever emitted. -/
theorem C4_thm (api : Nat → Except String (List (List Char))) (r : JVal) (jd it : String)
    (a s : JVal) (e : String)
    (h0 : fetchExtract api 0 = Except.ok a)
    (h1 : fetchExtract api 1 = Except.ok s)
    (h2 : fetchExtract api 2 = Except.error e) :
    (customizeResumeWithAgents api (mkState r jd it)).1 =
      Except.error ("Agentic customization failed: " ++
        ("Optimization application failed: " ++ e)) ∧
    (customizeResumeWithAgents api (mkState r jd it)).2.nCalls = 3 ∧
    ((customizeResumeWithAgents api (mkState r jd it)).2.events.map Prod.snd).contains
      ("Job analysis complete") = true ∧
    ((customizeResumeWithAgents api (mkState r jd it)).2.events.map Prod.snd).contains
      ("Strategy created") = true ∧
    (customizeResumeWithAgents api (mkState r jd it)).2.events.all
      (fun ev => (ev.2 != "Validating and refining results...") &&
        (ev.2 != "Validating resume quality...") && (ev.1 != 100)) = true := by
  cases ha0 : api 0 with
  | error e0 =>
    simp only [fetchExtract, ha0] at h0
    exact Except.noConfusion h0
  | ok b0 =>
  simp only [fetchExtract, ha0] at h0
  cases ha1 : api 1 with
  | error e1 =>
    simp only [fetchExtract, ha1] at h1
    exact Except.noConfusion h1
  | ok b1 =>
  simp only [fetchExtract, ha1] at h1
  cases ha2 : api 2 with
  | error e2 =>
    simp only [fetchExtract, ha2, Except.error.injEq] at h2
    subst h2
    refine ⟨?_, ?_, ?_, ?_, ?_⟩ <;>
      simp [customizeResumeWithAgents, analyzeJob, createStrategy, applyOptimizations,
        ha0, ha1, ha2, h0, h1, emit, bump, mkState, stage1Global, stage2Global,
        stage3Global] <;>
      norm_num
  | ok b2 =>
    simp only [fetchExtract, ha2] at h2
    refine ⟨?_, ?_, ?_, ?_, ?_⟩ <;>
      simp [customizeResumeWithAgents, analyzeJob, createStrategy, applyOptimizations,
        ha0, ha1, ha2, h0, h1, h2, emit, bump, mkState, stage1Global, stage2Global,
        stage3Global] <;>
      norm_num

/-- Witness for claim C4 at the concrete oracle `apiC4`. -/
theorem C4_witness :
    fetchExtract apiC4 0 = Except.ok (JVal.jobj []) ∧
    fetchExtract apiC4 2 = Except.error ("No response candidates") ∧
    (customizeResumeWithAgents apiC4 (mkState (JVal.jobj []) ("") (""))).1 =
      Except.error ("Agentic customization failed: " ++
        ("Optimization application failed: " ++ "No response candidates")) ∧
    (customizeResumeWithAgents apiC4 (mkState (JVal.jobj []) ("") (""))).2.nCalls = 3 :=
  ⟨rfl, rfl,
    (C4_thm apiC4 (JVal.jobj []) ("") ("") (JVal.jobj []) (JVal.jobj [])
      ("No response candidates") rfl rfl rfl).1,
    (C4_thm apiC4 (JVal.jobj []) ("") ("") (JVal.jobj []) (JVal.jobj [])
      ("No response candidates") rfl rfl rfl).2.1⟩

/-- Claim C6: part one — any record returned by a successful pipeline
run satisfies the final structural validator (the orchestrator performs
the final check before returning); part two — when all four stages
produce records but the end product fails the final structural
validation, the run surfaces the dedicated finalize error instead of
returning the record as if successful. -/
theorem C6_thm :
    (∀ (api : Nat → Except String (List (List Char))) (r : JVal) (jd it : String) (v : JVal),
      (customizeResumeWithAgents api (mkState r jd it)).1 = Except.ok v →
      agenticValidateResumeStructure v = true) ∧
    (∀ (api : Nat → Except String (List (List Char))) (r : JVal) (jd it : String)
        (a s o fv : JVal),
      fetchExtract api 0 = Except.ok a →
      fetchExtract api 1 = Except.ok s →
      fetchExtract api 2 = Except.ok o →
      fetchExtract api 3 = Except.ok fv →
      agenticValidateResumeStructure fv = false →
      (customizeResumeWithAgents api (mkState r jd it)).1 =
        Except.error ("Agentic customization failed: Final resume validation failed")) := by
  constructor
  · intro api r jd it v h
    unfold customizeResumeWithAgents at h
    dsimp only at h
    split at h
    · simp at h
    · split at h
      · simp at h
      · split at h
        · simp at h
        · split at h
          · simp at h
          · rename_i finalResume st4 heq
            by_cases hval : agenticValidateResumeStructure finalResume = true
            · rw [if_pos hval] at h
              simp at h
              rw [← h]
              exact hval
            · rw [if_neg hval] at h
              simp at h
  · intro api r jd it a s o fv h0 h1 h2 h3 hval
    cases ha0 : api 0 with
    | error e0 =>
      simp only [fetchExtract, ha0] at h0
      exact Except.noConfusion h0
    | ok b0 =>
    simp only [fetchExtract, ha0] at h0
    cases ha1 : api 1 with
    | error e1 =>
      simp only [fetchExtract, ha1] at h1
      exact Except.noConfusion h1
    | ok b1 =>
    simp only [fetchExtract, ha1] at h1
    cases ha2 : api 2 with
    | error e2 =>
      simp only [fetchExtract, ha2] at h2
      exact Except.noConfusion h2
    | ok b2 =>
    simp only [fetchExtract, ha2] at h2
    cases ha3 : api 3 with
    | error e3 =>
      simp only [fetchExtract, ha3] at h3
      exact Except.noConfusion h3
    | ok b3 =>
    simp only [fetchExtract, ha3] at h3
    simp [customizeResumeWithAgents, analyzeJob, createStrategy, applyOptimizations,
      validateAndRefine, ha0, ha1, ha2, ha3, h0, h1, h2, h3, hval, emit, bump, mkState]

/-- Witness for claim C6: the successful concrete run `apiC6` returns a
record accepted by the final validator, and the concrete run `apiC6b`
whose final record is `null` ends in the finalize error. -/
theorem C6_witness :
    agenticValidateResumeStructure (JVal.jobj [(piKey, JVal.jobj [])]) = true ∧
    (customizeResumeWithAgents apiC6b (mkState (JVal.jobj []) ("") (""))).1 =
      Except.error ("Agentic customization failed: Final resume validation failed") :=
  ⟨C6_thm.1 apiC6 (JVal.jobj []) ("") ("") (JVal.jobj [(piKey, JVal.jobj [])]) rfl,
    C6_thm.2 apiC6b (JVal.jobj []) ("") ("") JVal.jnull JVal.jnull JVal.jnull JVal.jnull
      rfl rfl rfl rfl rfl⟩

/-- Claim C7, counterexample: in the all-successful concrete run the
stage-1 local progress 25 is mapped to the global percentage 35/4
(8.75), produced by `5 + p * 0.15`; the claimed partition (stage 1
spanning 0-20 under `globalPct = stageStart + (p/100) * stageWeight`,
stageStart 0, stageWeight 20) would give 5 instead, so the claimed
stage partition 0-20 / 20-40 / 40-70 / 70-90 does not describe the
code's stage-1 mapping. -/
theorem C7_cex :
    c7Run.2.events.get? 1 = some (35 / 4, "Extracting key requirements...") ∧
    (0 + 25 / 100 * 20 : ℚ) ≠ 35 / 4 := by
  constructor
  · have h : c7Run.2.events.get? 1 =
      some (stage1Global 25, "Extracting key requirements...") := rfl
    rw [h]
    simp only [Option.some.injEq, Prod.mk.injEq]
    constructor
    · unfold stage1Global
      norm_num
    · trivial
  · norm_num

/-- Claim C7 as amended: each stage's local progress is mapped by
linear interpolation `stageStart + (p/100) * stageWeight`, with stage 1
spanning 5-20 (start 5, weight 15, after an initial 5% event), stage 2
20-40, stage 3 40-70 and stage 4 70-90, the 90-100 band reserved for
final assembly; every percentage emitted by the all-successful concrete
run lies in [0, 100] and the run ends at global progress 100 with a
record accepted by the final validator. -/
theorem C7_thm :
    (∀ p : ℚ, stage1Global p = 5 + p / 100 * 15) ∧
    (∀ p : ℚ, stage2Global p = 20 + p / 100 * 20) ∧
    (∀ p : ℚ, stage3Global p = 40 + p / 100 * 30) ∧
    (∀ p : ℚ, stage4Global p = 70 + p / 100 * 20) ∧
    (∀ ev ∈ c7Run.2.events, 0 ≤ ev.1 ∧ ev.1 ≤ 100) ∧
    c7Run.2.events.getLast? = some (100, "Resume customization complete!") ∧
    c7Run.1 = Except.ok (JVal.jobj [(piKey, JVal.jobj [])]) := by
  refine ⟨?_, ?_, ?_, ?_, ?_, rfl, rfl⟩
  · intro p
    unfold stage1Global
    ring
  · intro p
    unfold stage2Global
    ring
  · intro p
    unfold stage3Global
    ring
  · intro p
    unfold stage4Global
    ring
  · have h : c7Run.2.events =
      [(5, "Analyzing job requirements..."),
        (stage1Global 25, "Extracting key requirements..."),
        (stage1Global 50, "Processing job requirements..."),
        (stage1Global 75, "Analyzing company culture fit..."),
        (stage1Global 100, "Job analysis complete"),
        (20, "Creating optimization strategy..."),
        (stage2Global 20, "Creating optimization strategy..."),
        (stage2Global 60, "Analyzing optimization opportunities..."),
        (stage2Global 100, "Strategy created"),
        (40, "Applying resume optimizations..."),
        (stage3Global 10, "Applying keyword optimizations..."),
        (stage3Global 50, "Enhancing descriptions..."),
        (stage3Global 80, "Applying final optimizations..."),
        (stage3Global 100, "Optimizations applied"),
        (70, "Validating and refining results..."),
        (stage4Global 25, "Validating resume quality..."),
        (stage4Global 60, "Refining content quality..."),
        (stage4Global 90, "Final validation checks..."),
        (stage4Global 100, "Quality validation complete"),
        (90, "Finalizing customized resume..."),
        (100, "Resume customization complete!")] := rfl
    intro ev hev
    rw [h] at hev
    simp only [List.mem_cons, List.not_mem_nil, or_false] at hev
    rcases hev with rfl | rfl | rfl | rfl | rfl | rfl | rfl | rfl | rfl | rfl | rfl | rfl |
      rfl | rfl | rfl | rfl | rfl | rfl | rfl | rfl | rfl <;>
      constructor <;>
      simp [stage1Global, stage2Global, stage3Global, stage4Global] <;>
      norm_num

/-- Witness for the amended claim C7 at the first emitted event. -/
theorem C7_witness :
    (0 : ℚ) ≤ 5 ∧ (5 : ℚ) ≤ 100 :=
  C7_thm.2.2.2.2.1 (5, "Analyzing job requirements...") (List.mem_cons_self _ _)

/-- The job-analysis stage never writes the caller inputs carried in
the state. -/
theorem analyzeJob_inputs (api : Nat → Except String (List (List Char))) (g : ℚ → ℚ)
    (st : PState) :
    (analyzeJob api (fun p m s => emit (g p) m s) st).2.resumeIn = st.resumeIn ∧
    (analyzeJob api (fun p m s => emit (g p) m s) st).2.jobDesc = st.jobDesc ∧
    (analyzeJob api (fun p m s => emit (g p) m s) st).2.industry = st.industry := by
  unfold analyzeJob
  dsimp only
  repeat' split
  all_goals simp

/-- The strategy stage never writes the caller inputs. -/
theorem createStrategy_inputs (api : Nat → Except String (List (List Char))) (g : ℚ → ℚ)
    (st : PState) :
    (createStrategy api (fun p m s => emit (g p) m s) st).2.resumeIn = st.resumeIn ∧
    (createStrategy api (fun p m s => emit (g p) m s) st).2.jobDesc = st.jobDesc ∧
    (createStrategy api (fun p m s => emit (g p) m s) st).2.industry = st.industry := by
  unfold createStrategy
  dsimp only
  repeat' split
  all_goals simp

/-- The apply stage never writes the caller inputs. -/
theorem applyOptimizations_inputs (api : Nat → Except String (List (List Char))) (g : ℚ → ℚ)
    (st : PState) :
    (applyOptimizations api (fun p m s => emit (g p) m s) st).2.resumeIn = st.resumeIn ∧
    (applyOptimizations api (fun p m s => emit (g p) m s) st).2.jobDesc = st.jobDesc ∧
    (applyOptimizations api (fun p m s => emit (g p) m s) st).2.industry = st.industry := by
  unfold applyOptimizations
  dsimp only
  repeat' split
  all_goals simp

/-- The validating stage never writes the caller inputs. -/
theorem validateAndRefine_inputs (api : Nat → Except String (List (List Char))) (g : ℚ → ℚ)
    (st : PState) :
    (validateAndRefine api (fun p m s => emit (g p) m s) st).2.resumeIn = st.resumeIn ∧
    (validateAndRefine api (fun p m s => emit (g p) m s) st).2.jobDesc = st.jobDesc ∧
    (validateAndRefine api (fun p m s => emit (g p) m s) st).2.industry = st.industry := by
  unfold validateAndRefine
  dsimp only
  repeat' split
  all_goals simp

/-- Claim C8: the pipeline only reads its inputs — after any run
(successful or failed, for every oracle and every input) the original
resume record, the job description and the industry classifier carried
in the run state are unchanged; the run is a pure function of its
explicit arguments, mirroring that no stage method assigns to the input
objects and the stage singletons hold no request state. -/
theorem C8_thm (api : Nat → Except String (List (List Char))) (r : JVal) (jd it : String) :
    (customizeResumeWithAgents api (mkState r jd it)).2.resumeIn = r ∧
    (customizeResumeWithAgents api (mkState r jd it)).2.jobDesc = jd ∧
    (customizeResumeWithAgents api (mkState r jd it)).2.industry = it := by
  unfold customizeResumeWithAgents
  dsimp only
  rcases hA : analyzeJob api (fun p m s => emit (stage1Global p) m s)
      (emit 5 ("Analyzing job requirements...") (mkState r jd it)) with ⟨res1, st1⟩
  have iA := analyzeJob_inputs api stage1Global
    (emit 5 ("Analyzing job requirements...") (mkState r jd it))
  rw [hA] at iA
  simp only [emit_resumeIn, emit_jobDesc, emit_industry] at iA
  cases res1 with
  | error e =>
    simpa [mkState] using iA
  | ok ja =>
  dsimp only
  rcases hB : createStrategy api (fun p m s => emit (stage2Global p) m s)
      (emit 20 ("Creating optimization strategy...") st1) with ⟨res2, st2⟩
  have iB := createStrategy_inputs api stage2Global
    (emit 20 ("Creating optimization strategy...") st1)
  rw [hB] at iB
  simp only [emit_resumeIn, emit_jobDesc, emit_industry] at iB
  cases res2 with
  | error e =>
    rw [iB.1, iB.2.1, iB.2.2]
    simpa [mkState] using iA
  | ok stg =>
  dsimp only
  rcases hC : applyOptimizations api (fun p m s => emit (stage3Global p) m s)
      (emit 40 ("Applying resume optimizations...") st2) with ⟨res3, st3⟩
  have iC := applyOptimizations_inputs api stage3Global
    (emit 40 ("Applying resume optimizations...") st2)
  rw [hC] at iC
  simp only [emit_resumeIn, emit_jobDesc, emit_industry] at iC
  cases res3 with
  | error e =>
    rw [iC.1, iC.2.1, iC.2.2, iB.1, iB.2.1, iB.2.2]
    simpa [mkState] using iA
  | ok op =>
  dsimp only
  rcases hD : validateAndRefine api (fun p m s => emit (stage4Global p) m s)
      (emit 70 ("Validating and refining results...") st3) with ⟨res4, st4⟩
  have iD := validateAndRefine_inputs api stage4Global
    (emit 70 ("Validating and refining results...") st3)
  rw [hD] at iD
  simp only [emit_resumeIn, emit_jobDesc, emit_industry] at iD
  cases res4 with
  | error e =>
    rw [iD.1, iD.2.1, iD.2.2, iC.1, iC.2.1, iC.2.2, iB.1, iB.2.1, iB.2.2]
    simpa [mkState] using iA
  | ok fr =>
  dsimp only
  by_cases hval : agenticValidateResumeStructure fr = true
  · rw [if_pos hval]
    simp only [emit_resumeIn, emit_jobDesc, emit_industry]
    rw [iD.1, iD.2.1, iD.2.2, iC.1, iC.2.1, iC.2.2, iB.1, iB.2.1, iB.2.2]
    simpa [mkState] using iA
  · rw [if_neg hval]
    simp only [emit_resumeIn, emit_jobDesc, emit_industry]
    rw [iD.1, iD.2.1, iD.2.2, iC.1, iC.2.1, iC.2.2, iB.1, iB.2.1, iB.2.2]
    simpa [mkState] using iA
